import Mathlib

/-!
Shallow embedding of `funfolding/solution/likelihood.py`.

Real-valued float computations of the source are modelled over the exact
rationals; `np.log` is modelled by an abstract function `rlog`, passed as a
parameter, since no statement settled here depends on properties of the
logarithm.  Python exceptions are modelled by an `Except` result, and the
dynamic attribute dictionary of an instance is modelled by a record whose
fields are `Option`-valued: a field holds `none` exactly while the Python
attribute is unset, and reading an unset attribute produces an
AttributeError, as in Python.
-/

namespace Funfolding

open Matrix

/-- Names of the instance attributes that the likelihood code reads. -/
inductive PyAttr
  | model
  | g
  | tau
  | C
  | factor
  | neg_llh
  | N_prior
  | N
deriving DecidableEq

/-- Python exceptions raised (or raisable) by the embedded code:
the RuntimeError asking to run initialize first, the two
NotImplementedError cases of the base class, the two ValueError cases of
the constructors, and AttributeError for reading an unset attribute. -/
inductive PyErr
  | runtimeUninit
  | notImplGradient
  | notImplHesse
  | valueErrModel
  | valueErrLinear
  | attrErr (a : PyAttr)
deriving DecidableEq

/-- Result of `StandardLLH.evaluate_llh`: a float that is either `np.inf`,
`-np.inf`, or a finite value. -/
inductive PyVal
  | posInf
  | negInf
  | val (x : ℚ)
deriving DecidableEq

/-- Exact negation of a Python float result (used to state the
sign-convention claim). -/
def PyVal.negate : PyVal → PyVal
  | PyVal.posInf => PyVal.negInf
  | PyVal.negInf => PyVal.posInf
  | PyVal.val x => PyVal.val (-x)

instance {ε α : Type} [DecidableEq ε] [DecidableEq α] : DecidableEq (Except ε α) := fun a b =>
  match a, b with
  | Except.error x, Except.error y =>
      if h : x = y then isTrue (by rw [h]) else
        isFalse (fun hc => h (Except.error.inj hc))
  | Except.error _, Except.ok _ => isFalse (fun hc => Except.noConfusion hc)
  | Except.ok _, Except.error _ => isFalse (fun hc => Except.noConfusion hc)
  | Except.ok x, Except.ok y =>
      if h : x = y then isTrue (by rw [h]) else
        isFalse (fun hc => h (Except.ok.inj hc))

/-- Modelled from the spec: the forward-model contract of section 6 of the
spec (the `funfolding.model` module is not part of the given sources).  A
model owns a response matrix `A` of shape m x n, a dimension attribute
`dim_f`, and an `evaluate` operation mapping a candidate vector `f` to the
triple `(g_est, f, f_reg)`.  `isLinear` records whether the instance is an
instance of the subclass `LinearModel` (only linear models unlock
derivative support). -/
structure ForwardModel (m n : ℕ) where
  isLinear : Bool
  A : Matrix (Fin m) (Fin n) ℚ
  dim_f : ℕ
  eval : (Fin n → ℚ) → (Fin m → ℚ) × (Fin n → ℚ) × (Fin n → ℚ)

/-- Modelled from the spec: the argument passed for the `model` parameter.
`mk` wraps an instance of `Model` (possibly the linear subclass);
`notAModel` stands for any Python object that is not an instance of
`Model`, so that the `isinstance(model, Model)` check of the source can be
expressed. -/
inductive ModelArg (m n : ℕ)
  | mk (fm : ForwardModel m n)
  | notAModel

/-- Modelled from the spec: the `evaluate` method of a `LinearModel`
(section 6 of the spec): `g_est = A.f`, the candidate is passed through,
and the penalized vector `f_reg` is the candidate itself. -/
def linearEval {m n : ℕ} (A : Matrix (Fin m) (Fin n) ℚ) :
    (Fin n → ℚ) → (Fin m → ℚ) × (Fin n → ℚ) × (Fin n → ℚ) :=
  fun f => (A.mulVec f, f, f)

/-- The local matrix built by `create_C_thikonov` before the final
`np.dot(C.T, C)`: row 0 is (-1, 1, 0, ...), each interior row i carries
-2 at (i, i) and 1 at (i, i-1) and (i, i+1), and the last row carries -1
at the diagonal and 1 at the previous column.  The rows written by the
three parts of the source are disjoint (the source requires n >= 2 for
its indexing to be in range). -/
def thikonovD (α : Type) [CommRing α] (n : ℕ) : Matrix (Fin n) (Fin n) α :=
  Matrix.of fun i j =>
    if (i : ℕ) = 0 then
      (if (j : ℕ) = 0 then -1 else if (j : ℕ) = 1 then 1 else 0)
    else if (i : ℕ) = n - 1 then
      (if (j : ℕ) = n - 1 then -1 else if (j : ℕ) = n - 2 then 1 else 0)
    else
      if (j : ℕ) = (i : ℕ) then -2
      else if (j : ℕ) + 1 = (i : ℕ) ∨ (j : ℕ) = (i : ℕ) + 1 then 1 else 0

/-- Embeds `create_C_thikonov(n_dims)`: builds the second-derivative
matrix and returns `np.dot(C.T, C)`. -/
def create_C_thikonov (α : Type) [CommRing α] (n : ℕ) : Matrix (Fin n) (Fin n) α :=
  (thikonovD α n)ᵀ * thikonovD α n

/-- The attribute dictionary of an `LLH` / `StandardLLH` instance: every
attribute that the embedded methods read or write.  `status` and the two
capability flags are set by `LLH.__init__`; the remaining attributes stay
unset (`none`) until `StandardLLH.initialize` assigns them.  The attribute
`g` is read by the three evaluate methods of `StandardLLH` but is never
assigned anywhere in the class (initialize stores the counts as `vec_g`). -/
structure LLHState (m n : ℕ) where
  status : Int
  gradient_defined : Bool
  hesse_matrix_defined : Bool
  model : Option (ForwardModel m n)
  n_dims_f : Option ℕ
  vec_g : Option (Fin m → ℚ)
  N : Option ℚ
  C : Option (Matrix (Fin n) (Fin n) ℚ)
  tau : Option ℚ
  factor : Option ℚ
  neg_llh : Option Bool
  N_prior : Option Bool
  g : Option (Fin m → ℚ)

/-- Embeds `LLH.__init__`: status -1, both capability flags False, no
other attribute set (the logger is a pure side effect and is omitted). -/
def LLH_new {m n : ℕ} : LLHState m n :=
  LLHState.mk (-1) false false none none none none none none none none none none

/-- Embeds `LLH.initialize`: sets status to 0. -/
def LLH_init {m n : ℕ} (s : LLHState m n) : LLHState m n :=
  LLHState.mk 0 s.gradient_defined s.hesse_matrix_defined s.model s.n_dims_f
    s.vec_g s.N s.C s.tau s.factor s.neg_llh s.N_prior s.g

/-- Reading a Python instance attribute: AttributeError when unset. -/
def attr {α : Type} (o : Option α) (a : PyAttr) : Except PyErr α :=
  match o with
  | none => Except.error (PyErr.attrErr a)
  | some x => Except.ok x

/-- Embeds the body of `LLH.evaluate_llh` (the lifecycle check run by the
`super()` call): RuntimeError when status < 0. -/
def LLH_evaluate_llh_check {m n : ℕ} (s : LLHState m n) : Except PyErr Unit :=
  if s.status < 0 then Except.error PyErr.runtimeUninit else Except.ok ()

/-- Embeds the body of `LLH.evaluate_gradient`: the capability flag is
tested first; only when it is set is the status checked, otherwise
NotImplementedError is raised. -/
def LLH_evaluate_gradient_check {m n : ℕ} (s : LLHState m n) : Except PyErr Unit :=
  if s.gradient_defined then
    (if s.status < 0 then Except.error PyErr.runtimeUninit else Except.ok ())
  else Except.error PyErr.notImplGradient

/-- Embeds the body of `LLH.evaluate_hesse_matrix`: same shape as the
gradient check, with the Hesse capability flag. -/
def LLH_evaluate_hesse_check {m n : ℕ} (s : LLHState m n) : Except PyErr Unit :=
  if s.hesse_matrix_defined then
    (if s.status < 0 then Except.error PyErr.runtimeUninit else Except.ok ())
  else Except.error PyErr.notImplHesse

/-- Embeds `StandardLLH.initialize`.  The `super()` call sets status to 0
before the `isinstance(model, Model)` check, so on a non-Model argument
the ValueError is raised with the status already advanced.  On success all
remaining attributes are assigned; the capability flags are set to True
only when the model is an instance of `LinearModel` (otherwise they keep
their previous values).  The attribute `g` is not assigned.  Returns the
resulting instance state together with the raised exception, if any. -/
def StandardLLH_init {m n : ℕ} (s : LLHState m n) (vec_g : Fin m → ℚ)
    (model : ModelArg m n) (tau : ℚ) (C : Matrix (Fin n) (Fin n) ℚ)
    (N_prior : Bool) (neg_llh : Bool) : LLHState m n × Except PyErr Unit :=
  let s1 := LLH_init s
  match model with
  | ModelArg.notAModel => (s1, Except.error PyErr.valueErrModel)
  | ModelArg.mk fm =>
      (LLHState.mk 0
        (if fm.isLinear then true else s1.gradient_defined)
        (if fm.isLinear then true else s1.hesse_matrix_defined)
        (some fm) (some fm.dim_f) (some vec_g) (some (∑ i, vec_g i)) (some C)
        (some tau) (some (if neg_llh then 1 else -1)) (some neg_llh)
        (some N_prior) s1.g,
       Except.ok ())

/-- Embeds `StandardLLH.evaluate_llh`.  The method body performs no
attribute assignment, so the instance state is returned unchanged next to
the result.  Attribute reads happen in source order: status check, model,
negativity guard (reading neg_llh), then g, tau, C, N_prior, (N), factor. -/
def StandardLLH_evaluate_llh {m n : ℕ} (rlog : ℚ → ℚ) (s : LLHState m n)
    (f : Fin n → ℚ) : LLHState m n × Except PyErr PyVal :=
  (s, do
    let _u ← LLH_evaluate_llh_check s
    let model ← attr s.model PyAttr.model
    let g_est := (model.eval f).1
    let f2 := (model.eval f).2.1
    let f_reg := (model.eval f).2.2
    if (∃ i, g_est i < 0) ∨ (∃ i, f2 i < 0) then
      let nl ← attr s.neg_llh PyAttr.neg_llh
      if nl then return PyVal.posInf else return PyVal.negInf
    else
      let g ← attr s.g PyAttr.g
      let tau ← attr s.tau PyAttr.tau
      let C ← attr s.C PyAttr.C
      let poisson_part := ∑ i, (g_est i - g i * rlog (g_est i))
      let base := (1 / 2 : ℚ) * tau * Matrix.dotProduct f_reg (C.mulVec f_reg)
      let np ← attr s.N_prior PyAttr.N_prior
      let regularization_part ←
        if np then do
          let N ← attr s.N PyAttr.N
          let sum_f := ∑ i, f2 i
          pure (base + (sum_f - N * rlog sum_f))
        else pure base
      let factor ← attr s.factor PyAttr.factor
      return PyVal.val ((poisson_part + regularization_part) * factor))

/-- Embeds `StandardLLH.evaluate_gradient`.  `h_unreg = np.sum(A, axis=0)`,
`part_b[k] = sum_i A[i,k] * g[i] * (1/g_est[i])`, the regularization
gradient is `tau * (C . f_reg)`, and only the regularization part is
multiplied by `factor` in the returned sum. -/
def StandardLLH_evaluate_gradient {m n : ℕ} (s : LLHState m n)
    (f : Fin n → ℚ) : LLHState m n × Except PyErr (Fin n → ℚ) :=
  (s, do
    let _u ← LLH_evaluate_gradient_check s
    let model ← attr s.model PyAttr.model
    let g_est := (model.eval f).1
    let f_reg := (model.eval f).2.2
    let h_unreg : Fin n → ℚ := fun k => ∑ i, model.A i k
    let g ← attr s.g PyAttr.g
    let part_b : Fin n → ℚ := fun k => ∑ i, model.A i k * g i * (1 / g_est i)
    let h2 : Fin n → ℚ := fun k => h_unreg k - part_b k
    let tau ← attr s.tau PyAttr.tau
    let C ← attr s.C PyAttr.C
    let regularization_part : Fin n → ℚ := fun k => tau * C.mulVec f_reg k
    let factor ← attr s.factor PyAttr.factor
    return fun k => h2 k + regularization_part k * factor)

/-- Embeds `StandardLLH.evaluate_hesse_matrix`:
`H_unreg = A.T @ diag(g / g_est**2) @ A`, returned as
`((tau * C) + H_unreg) * factor`. -/
def StandardLLH_evaluate_hesse_matrix {m n : ℕ} (s : LLHState m n)
    (f : Fin n → ℚ) : LLHState m n × Except PyErr (Matrix (Fin n) (Fin n) ℚ) :=
  (s, do
    let _u ← LLH_evaluate_hesse_check s
    let model ← attr s.model PyAttr.model
    let g_est := (model.eval f).1
    let g ← attr s.g PyAttr.g
    let H_unreg := model.Aᵀ * Matrix.diagonal (fun i => g i / g_est i ^ 2) * model.A
    let tau ← attr s.tau PyAttr.tau
    let C ← attr s.C PyAttr.C
    let factor ← attr s.factor PyAttr.factor
    return Matrix.of fun k l => (tau * C k l + H_unreg k l) * factor)

/-- The attributes of an `LLHThikonovForLoops` instance; its constructor
assigns all of them, so the fields are total. -/
structure ForLoopsState (m n : ℕ) where
  linear_model : ForwardModel m n
  n_dims_f : ℕ
  g : Fin m → ℚ
  C : Matrix (Fin n) (Fin n) ℚ
  tau : ℚ
  status : Int

/-- Embeds `LLHThikonovForLoops.__init__`: ValueError unless the model is
an instance of `LinearModel`; stores g, the Tikhonov matrix for
`A.shape[1]` columns, tau, and status 0. -/
def LLHThikonovForLoops_new {m n : ℕ} (g : Fin m → ℚ) (linear_model : ModelArg m n)
    (tau : ℚ) : Except PyErr (ForLoopsState m n) :=
  match linear_model with
  | ModelArg.notAModel => Except.error PyErr.valueErrLinear
  | ModelArg.mk fm =>
      if fm.isLinear then
        Except.ok (ForLoopsState.mk fm n g (create_C_thikonov ℚ n) tau 0)
      else Except.error PyErr.valueErrLinear

/-- Embeds `LLHThikonovForLoops.evaluate_llh`: scalar loops computing
`g_est[i] = sum_j A[i,j] f[j]`, the Poisson sum, the double regularization
sum scaled by `0.5 * tau`, returning `reg_part - poisson_part`. -/
def LLHThikonovForLoops_evaluate_llh {m n : ℕ} (rlog : ℚ → ℚ)
    (s : ForLoopsState m n) (f : Fin n → ℚ) : ℚ :=
  let g_est : Fin m → ℚ := fun i => ∑ j, s.linear_model.A i j * f j
  let poisson_part := ∑ i, (g_est i - s.g i * rlog (g_est i))
  let reg_part := (∑ i, ∑ j, s.C i j * f i * f j) * ((1 / 2 : ℚ) * s.tau)
  reg_part - poisson_part

/-- Embeds `LLHThikonovForLoops.evaluate_gradient`: per component k, the
Poisson part `sum_i (A[i,k] - g[i] A[i,k] / g_est[i])` and the
regularization part `tau * sum_i C[i,k] f[i]`, returning
`reg_part - poisson_part`. -/
def LLHThikonovForLoops_evaluate_gradient {m n : ℕ}
    (s : ForLoopsState m n) (f : Fin n → ℚ) : Fin n → ℚ :=
  fun k =>
    let poisson_part :=
      ∑ i, (s.linear_model.A i k -
        s.g i * s.linear_model.A i k / (∑ j, s.linear_model.A i j * f j))
    let c := ∑ i, s.C i k * f i
    s.tau * c - poisson_part

/-- Embeds `LLHThikonovForLoops.evaluate_hesse_matrix`: entry (k, l) is
`sum_i g[i] A[i,k] A[i,l] / g_est[i]**2 + tau * C[k,l]`, with `g_est`
recomputed inside the loop. -/
def LLHThikonovForLoops_evaluate_hesse_matrix {m n : ℕ}
    (s : ForLoopsState m n) (f : Fin n → ℚ) : Matrix (Fin n) (Fin n) ℚ :=
  Matrix.of fun k l =>
    (∑ i, s.g i * s.linear_model.A i k * s.linear_model.A i l /
        (∑ j, s.linear_model.A i j * f j) ^ 2)
      + s.tau * s.C k l

/-- The discrete second-derivative operator exactly as the claim about
`create_C_thikonov` describes it: boundary row 0 = (-1, 1, 0, ...),
interior rows (..., 1, -2, 1, ...), and the mirrored last row with -1 on
the diagonal and +1 on the previous column. -/
def secondDerivOperator (n : ℕ) : Matrix (Fin n) (Fin n) ℝ :=
  Matrix.of fun i j =>
    if (i : ℕ) = 0 then
      (if (j : ℕ) = 0 then -1 else if (j : ℕ) = 1 then 1 else 0)
    else if (i : ℕ) + 1 = n then
      (if (j : ℕ) + 1 = n then -1 else if (j : ℕ) + 2 = n then 1 else 0)
    else
      if (i : ℕ) = (j : ℕ) then -2
      else if (j : ℕ) + 1 = (i : ℕ) ∨ (i : ℕ) + 1 = (j : ℕ) then 1 else 0

/-- A 1 x 1 response matrix with single entry 1. -/
def A11 : Matrix (Fin 1) (Fin 1) ℚ := Matrix.of fun _ _ => 1

/-- A concrete 1 x 1 linear model (identity response). -/
def idModel1 : ForwardModel 1 1 := ForwardModel.mk true A11 1 (linearEval A11)

/-- A concrete model whose evaluation yields a negative `g_est`. -/
def negModel1 : ForwardModel 1 1 :=
  ForwardModel.mk true A11 1 (fun f => (fun _ => -1, f, f))

/-- A concrete non-linear model (not an instance of `LinearModel`). -/
def nonlinModel1 : ForwardModel 1 1 := ForwardModel.mk false A11 1 (linearEval A11)

/-- A concrete 4 x 3 response matrix (three unit rows and a row of ones),
giving a linear model with m > n >= 3. -/
def A43 : Matrix (Fin 4) (Fin 3) ℚ :=
  Matrix.of fun i j => if (i : ℕ) = (j : ℕ) then 1 else if (i : ℕ) = 3 then 1 else 0

/-- The concrete 4 x 3 linear model. -/
def model43 : ForwardModel 4 3 := ForwardModel.mk true A43 3 (linearEval A43)

/-- Concrete observed counts [3, 1, 2, 6] for the 4 x 3 model. -/
def g43 : Fin 4 → ℚ := fun i =>
  if (i : ℕ) = 0 then 3 else if (i : ℕ) = 1 then 1 else if (i : ℕ) = 2 then 2 else 6

/-- A concrete all-positive candidate [1, 2, 3] for the 4 x 3 model. -/
def f43 : Fin 3 → ℚ := fun j =>
  if (j : ℕ) = 0 then 1 else if (j : ℕ) = 1 then 2 else 3

/-- A concrete all-positive candidate of length 1. -/
def f0 : Fin 1 → ℚ := fun _ => 1

/-- The matrix built inside `create_C_thikonov` coincides with the
second-derivative operator described in the spec. -/
theorem thikonovD_eq_secondDeriv (n : ℕ) : thikonovD ℝ n = secondDerivOperator n := by
  funext i j
  have hi := i.isLt
  have hj := j.isLt
  simp only [thikonovD, secondDerivOperator, Matrix.of_apply]
  split_ifs <;> first | rfl | omega

/-- C3: for every n >= 3, `create_C_thikonov(n)` is exactly symmetric and
positive semi-definite over the reals, and equals D transposed times D for
the discrete second-derivative operator D with boundary row 0 =
(-1, 1, 0, ...), interior rows (..., 1, -2, 1, ...), and mirrored last
row. -/
theorem create_C_thikonov_symm_psd (n : ℕ) (hn : 3 ≤ n) :
    (create_C_thikonov ℝ n)ᵀ = create_C_thikonov ℝ n
  ∧ (∀ x : Fin n → ℝ, 0 ≤ x ⬝ᵥ (create_C_thikonov ℝ n).mulVec x)
  ∧ create_C_thikonov ℝ n = (secondDerivOperator n)ᵀ * secondDerivOperator n := by
  refine ⟨?_, ?_, ?_⟩
  · rw [create_C_thikonov, Matrix.transpose_mul, Matrix.transpose_transpose]
  · intro x
    have h1 : (create_C_thikonov ℝ n).mulVec x
        = (thikonovD ℝ n)ᵀ.mulVec ((thikonovD ℝ n).mulVec x) := by
      rw [create_C_thikonov, Matrix.mulVec_mulVec]
    rw [h1, Matrix.dotProduct_mulVec, Matrix.vecMul_transpose]
    exact Finset.sum_nonneg fun i _ => mul_self_nonneg _
  · rw [create_C_thikonov, thikonovD_eq_secondDeriv]

/-- Witness for C3 at the concrete size n = 3. -/
theorem create_C_thikonov_symm_psd_witness :
    3 ≤ 3
  ∧ ((create_C_thikonov ℝ 3)ᵀ = create_C_thikonov ℝ 3
      ∧ (∀ x : Fin 3 → ℝ, 0 ≤ x ⬝ᵥ (create_C_thikonov ℝ 3).mulVec x)
      ∧ create_C_thikonov ℝ 3 = (secondDerivOperator 3)ᵀ * secondDerivOperator 3) :=
  ⟨by norm_num, create_C_thikonov_symm_psd 3 (by norm_num)⟩

/-- C8 (evaluation of the code at the failing input): on the initialized
StandardLLH with the 1 x 1 identity linear model and the all-positive
candidate f = [1], evaluate_hesse_matrix raises AttributeError for the
attribute g (read on line 120) instead of returning
(A.T diag(vec_g/g_est^2) A + tau C) * factor. -/
theorem evaluate_hesse_attribute_g_error :
    (StandardLLH_evaluate_hesse_matrix
      (StandardLLH_init (LLH_new) (fun _ => 2) (ModelArg.mk idModel1) 0 0 false true).1 f0).2
      = Except.error (PyErr.attrErr PyAttr.g) := rfl

/-- C6 counterexample: on a fresh instance, on which initialize has not
been called, evaluate_gradient does not fail with the uninitialized
RuntimeError (it raises NotImplementedError, because the capability flag
is checked before the status). -/
theorem uninitialized_gradient_not_uninit_error :
    (StandardLLH_evaluate_gradient (LLH_new : LLHState 1 1) f0).2
      ≠ Except.error PyErr.runtimeUninit := by
  intro h
  exact PyErr.noConfusion (Except.error.inj h)

/-- C6 amended: on every instance on which initialize has not been called,
evaluate_llh fails with the uninitialized RuntimeError, but
evaluate_gradient and evaluate_hesse_matrix fail with the respective
NotImplementedError: the capability flags default to False and are tested
before the status check. -/
theorem uninitialized_eval_errors (m n : ℕ) (f : Fin n → ℚ) (rlog : ℚ → ℚ) :
    (StandardLLH_evaluate_llh rlog (LLH_new : LLHState m n) f).2
      = Except.error PyErr.runtimeUninit
  ∧ (StandardLLH_evaluate_gradient (LLH_new : LLHState m n) f).2
      = Except.error PyErr.notImplGradient
  ∧ (StandardLLH_evaluate_hesse_matrix (LLH_new : LLHState m n) f).2
      = Except.error PyErr.notImplHesse :=
  ⟨rfl, rfl, rfl⟩

/-- C9: the three evaluation methods mutate no stored attribute: the
instance state after any call equals the state before it, and a second
call with the same candidate on the resulting instance returns the same
result (and again the same state). -/
theorem evaluate_methods_pure (m n : ℕ) (s : LLHState m n) (f : Fin n → ℚ)
    (rlog : ℚ → ℚ) :
    (StandardLLH_evaluate_llh rlog s f).1 = s
  ∧ (StandardLLH_evaluate_gradient s f).1 = s
  ∧ (StandardLLH_evaluate_hesse_matrix s f).1 = s
  ∧ StandardLLH_evaluate_llh rlog (StandardLLH_evaluate_llh rlog s f).1 f
      = StandardLLH_evaluate_llh rlog s f
  ∧ StandardLLH_evaluate_gradient (StandardLLH_evaluate_gradient s f).1 f
      = StandardLLH_evaluate_gradient s f
  ∧ StandardLLH_evaluate_hesse_matrix (StandardLLH_evaluate_hesse_matrix s f).1 f
      = StandardLLH_evaluate_hesse_matrix s f :=
  ⟨rfl, rfl, rfl, rfl, rfl, rfl⟩

/-- C10: initializing a fresh StandardLLH with an argument that is not an
instance of Model raises ValueError, but the status has already been set
to 0 by the super call, so a subsequent evaluate_llh passes the lifecycle
check: it fails with AttributeError for the unset attribute model, not
with the uninitialized RuntimeError. -/
theorem init_non_model_not_atomic (m n : ℕ) (vec_g : Fin m → ℚ) (tau : ℚ)
    (C : Matrix (Fin n) (Fin n) ℚ) (np nl : Bool) (f : Fin n → ℚ) (rlog : ℚ → ℚ) :
    (StandardLLH_init (LLH_new) vec_g ModelArg.notAModel tau C np nl).2
      = Except.error PyErr.valueErrModel
  ∧ (StandardLLH_init (LLH_new) vec_g ModelArg.notAModel tau C np nl).1.status = 0
  ∧ (StandardLLH_evaluate_llh rlog
      (StandardLLH_init (LLH_new) vec_g ModelArg.notAModel tau C np nl).1 f).2
      = Except.error (PyErr.attrErr PyAttr.model)
  ∧ (StandardLLH_evaluate_llh rlog
      (StandardLLH_init (LLH_new) vec_g ModelArg.notAModel tau C np nl).1 f).2
      ≠ Except.error PyErr.runtimeUninit := by
  refine ⟨rfl, rfl, rfl, ?_⟩
  intro h
  exact PyErr.noConfusion (Except.error.inj h)

/-- Reduction of a successful bind in the `Except` monad. -/
theorem okBind {α β : Type} (a : α) (k : α → Except PyErr β) :
    (Except.ok a : Except PyErr α) >>= k = k a := rfl

/-- Reduction of a failing bind in the `Except` monad. -/
theorem errBind {α β : Type} (e : PyErr) (k : α → Except PyErr β) :
    (Except.error e : Except PyErr α) >>= k = Except.error e := rfl

/-- Evaluating the likelihood on a freshly constructed and then
initialized instance, at a candidate passing the negativity guard,
reaches the read of the unset attribute g and raises AttributeError. -/
theorem evaluate_llh_after_init_feasible {m n : ℕ} (rlog : ℚ → ℚ)
    (vec_g : Fin m → ℚ) (fm : ForwardModel m n) (tau : ℚ)
    (C : Matrix (Fin n) (Fin n) ℚ) (np nl : Bool) (f : Fin n → ℚ)
    (h : ¬ ((∃ i, (fm.eval f).1 i < 0) ∨ (∃ i, (fm.eval f).2.1 i < 0))) :
    (StandardLLH_evaluate_llh rlog
      (StandardLLH_init (LLH_new) vec_g (ModelArg.mk fm) tau C np nl).1 f).2
      = Except.error (PyErr.attrErr PyAttr.g) := by
  simp only [StandardLLH_evaluate_llh, StandardLLH_init, LLH_init, LLH_new,
    LLH_evaluate_llh_check, attr, lt_self_iff_false, if_false, okBind, errBind]
  rw [if_neg h]

/-- Evaluating the likelihood on an initialized instance at a candidate
failing the negativity guard returns the signed infinity selected by
neg_llh, without raising. -/
theorem evaluate_llh_after_init_infeasible {m n : ℕ} (rlog : ℚ → ℚ)
    (s0 : LLHState m n) (vec_g : Fin m → ℚ) (fm : ForwardModel m n) (tau : ℚ)
    (C : Matrix (Fin n) (Fin n) ℚ) (np nl : Bool) (f : Fin n → ℚ)
    (h : (∃ i, (fm.eval f).1 i < 0) ∨ (∃ i, (fm.eval f).2.1 i < 0)) :
    (StandardLLH_evaluate_llh rlog
      (StandardLLH_init s0 vec_g (ModelArg.mk fm) tau C np nl).1 f).2
      = Except.ok (if nl then PyVal.posInf else PyVal.negInf) := by
  simp only [StandardLLH_evaluate_llh, StandardLLH_init, LLH_init,
    LLH_evaluate_llh_check, attr, lt_self_iff_false, if_false, okBind, errBind]
  rw [if_pos h]
  cases nl <;> rfl

/-- The gradient on a freshly constructed and then initialized instance
with a linear model reaches the read of the unset attribute g. -/
theorem evaluate_gradient_after_init {m n : ℕ}
    (vec_g : Fin m → ℚ) (fm : ForwardModel m n) (tau : ℚ)
    (C : Matrix (Fin n) (Fin n) ℚ) (np nl : Bool) (f : Fin n → ℚ)
    (hlin : fm.isLinear = true) :
    (StandardLLH_evaluate_gradient
      (StandardLLH_init (LLH_new) vec_g (ModelArg.mk fm) tau C np nl).1 f).2
      = Except.error (PyErr.attrErr PyAttr.g) := by
  simp only [StandardLLH_evaluate_gradient, StandardLLH_init, LLH_init, LLH_new,
    LLH_evaluate_gradient_check, attr, hlin, lt_self_iff_false, if_false, if_true,
    okBind, errBind]

/-- The Hesse matrix on a freshly constructed and then initialized
instance with a linear model reaches the read of the unset attribute g. -/
theorem evaluate_hesse_after_init {m n : ℕ}
    (vec_g : Fin m → ℚ) (fm : ForwardModel m n) (tau : ℚ)
    (C : Matrix (Fin n) (Fin n) ℚ) (np nl : Bool) (f : Fin n → ℚ)
    (hlin : fm.isLinear = true) :
    (StandardLLH_evaluate_hesse_matrix
      (StandardLLH_init (LLH_new) vec_g (ModelArg.mk fm) tau C np nl).1 f).2
      = Except.error (PyErr.attrErr PyAttr.g) := by
  simp only [StandardLLH_evaluate_hesse_matrix, StandardLLH_init, LLH_init, LLH_new,
    LLH_evaluate_hesse_check, attr, hlin, lt_self_iff_false, if_false, if_true,
    okBind, errBind]

/-- The 1 x 1 identity model and the candidate f0 = [1] pass the
negativity guard. -/
theorem idModel1_feasible :
    ¬ ((∃ i, (idModel1.eval f0).1 i < 0) ∨ (∃ i, (idModel1.eval f0).2.1 i < 0)) := by
  norm_num [idModel1, linearEval, A11, f0, Matrix.mulVec, Matrix.dotProduct,
    Matrix.of_apply, Fin.sum_univ_one]

/-- The 4 x 3 model at the candidate f43 = [1,2,3] passes the negativity
guard. -/
theorem model43_feasible :
    ¬ ((∃ i, (model43.eval f43).1 i < 0) ∨ (∃ i, (model43.eval f43).2.1 i < 0)) := by
  push_neg
  constructor
  · intro i
    fin_cases i <;>
      norm_num [model43, linearEval, A43, f43, Matrix.mulVec, Matrix.dotProduct,
        Matrix.of_apply, Fin.sum_univ_three]
  · intro i
    fin_cases i <;> norm_num [model43, linearEval, f43]

/-- C1 (evaluation of the code at the failing input): a StandardLLH
initialized with observed counts vec_g, a model, tau, a matrix C and
neg_llh = True, evaluated at a candidate whose model evaluation yields
componentwise non-negative g_est and f, raises AttributeError for the
attribute g instead of returning
(poisson_part + regularization_part) * factor: initialize stored the
counts as vec_g, and the attribute g read on line 98 is never assigned. -/
theorem evaluate_llh_feasible_attribute_g_error {m n : ℕ} (rlog : ℚ → ℚ)
    (vec_g : Fin m → ℚ) (fm : ForwardModel m n) (tau : ℚ)
    (C : Matrix (Fin n) (Fin n) ℚ) (np : Bool) (f : Fin n → ℚ)
    (hg : ∀ i, 0 ≤ (fm.eval f).1 i) (hf : ∀ i, 0 ≤ (fm.eval f).2.1 i) :
    (StandardLLH_evaluate_llh rlog
      (StandardLLH_init (LLH_new) vec_g (ModelArg.mk fm) tau C np true).1 f).2
      = Except.error (PyErr.attrErr PyAttr.g) := by
  refine evaluate_llh_after_init_feasible rlog vec_g fm tau C np true f ?_
  push_neg
  exact ⟨hg, hf⟩

/-- Witness for C1: the concrete instance with vec_g = [2], the 1 x 1
identity linear model, tau = 0, C = 0, neg_llh = True, at f = [1]. -/
theorem evaluate_llh_feasible_attribute_g_error_witness :
    (∀ i, 0 ≤ (idModel1.eval f0).1 i) ∧ (∀ i, 0 ≤ (idModel1.eval f0).2.1 i)
  ∧ (StandardLLH_evaluate_llh (fun x => x)
      (StandardLLH_init (LLH_new) (fun _ => 2) (ModelArg.mk idModel1) 0 0 false true).1 f0).2
      = Except.error (PyErr.attrErr PyAttr.g) := by
  have hg : ∀ i, 0 ≤ (idModel1.eval f0).1 i := by
    intro i
    norm_num [idModel1, linearEval, A11, f0, Matrix.mulVec, Matrix.dotProduct,
      Matrix.of_apply, Fin.sum_univ_one]
  have hf : ∀ i, 0 ≤ (idModel1.eval f0).2.1 i := by
    intro i
    norm_num [idModel1, linearEval, f0]
  exact ⟨hg, hf,
    evaluate_llh_feasible_attribute_g_error (fun x => x) (fun _ => 2) idModel1 0 0 false f0 hg hf⟩

/-- C2 (evaluation of the code at the failing input): for the linear model
with m = 4 > n = 3, A = [e1; e2; e3; (1,1,1)], vec_g = [3,1,2,6], tau = 1,
C = create_C_thikonov(3), the vectorized StandardLLH raises
AttributeError for the attribute g at the all-positive candidate
f = [1,2,3], for every logarithm, so its value cannot match the
brute-force reference within any tolerance; the reference object itself
is constructed without error. -/
theorem vectorized_vs_forloops_mismatch (rlog : ℚ → ℚ) :
    (StandardLLH_evaluate_llh rlog
      (StandardLLH_init (LLH_new) g43 (ModelArg.mk model43) 1 (create_C_thikonov ℚ 3)
        false true).1 f43).2
      = Except.error (PyErr.attrErr PyAttr.g)
  ∧ LLHThikonovForLoops_new g43 (ModelArg.mk model43) 1
      = Except.ok (ForLoopsState.mk model43 3 g43 (create_C_thikonov ℚ 3) 1 0) :=
  ⟨evaluate_llh_after_init_feasible rlog g43 model43 1 (create_C_thikonov ℚ 3)
      false true f43 model43_feasible, rfl⟩

/-- C4: on every initialized StandardLLH, a candidate whose model
evaluation yields a negative component in g_est or in the returned f
makes evaluate_llh return positive infinity when neg_llh is True and
negative infinity when neg_llh is False, without raising. -/
theorem evaluate_llh_infeasible_signed_infinity {m n : ℕ} (rlog : ℚ → ℚ)
    (s0 : LLHState m n) (vec_g : Fin m → ℚ) (fm : ForwardModel m n) (tau : ℚ)
    (C : Matrix (Fin n) (Fin n) ℚ) (np nl : Bool) (f : Fin n → ℚ)
    (h : (∃ i, (fm.eval f).1 i < 0) ∨ (∃ i, (fm.eval f).2.1 i < 0)) :
    (StandardLLH_evaluate_llh rlog
      (StandardLLH_init s0 vec_g (ModelArg.mk fm) tau C np nl).1 f).2
      = Except.ok (if nl then PyVal.posInf else PyVal.negInf) :=
  evaluate_llh_after_init_infeasible rlog s0 vec_g fm tau C np nl f h

/-- Witness for C4: the concrete model returning g_est = [-1] at f = [1],
with neg_llh = True. -/
theorem evaluate_llh_infeasible_signed_infinity_witness :
    ((∃ i, (negModel1.eval f0).1 i < 0) ∨ (∃ i, (negModel1.eval f0).2.1 i < 0))
  ∧ (StandardLLH_evaluate_llh (fun x => x)
      (StandardLLH_init (LLH_new : LLHState 1 1) (fun _ => 1) (ModelArg.mk negModel1)
        0 0 false true).1 f0).2
      = Except.ok (if true then PyVal.posInf else PyVal.negInf) := by
  have h : (∃ i, (negModel1.eval f0).1 i < 0) ∨ (∃ i, (negModel1.eval f0).2.1 i < 0) :=
    Or.inl ⟨0, by norm_num [negModel1]⟩
  exact ⟨h, evaluate_llh_infeasible_signed_infinity (fun x => x) LLH_new (fun _ => 1)
    negModel1 0 0 false true f0 h⟩

/-- C7: StandardLLH.initialize on a fresh instance sets gradient_defined
and hesse_matrix_defined to True exactly when the supplied model is an
instance of LinearModel, and with a non-linear model every call to
evaluate_gradient or evaluate_hesse_matrix fails with the respective
NotImplementedError. -/
theorem capability_flags_iff_linear {m n : ℕ} (vec_g : Fin m → ℚ)
    (fm : ForwardModel m n) (tau : ℚ) (C : Matrix (Fin n) (Fin n) ℚ) (np nl : Bool) :
    (StandardLLH_init (LLH_new) vec_g (ModelArg.mk fm) tau C np nl).1.gradient_defined
      = fm.isLinear
  ∧ (StandardLLH_init (LLH_new) vec_g (ModelArg.mk fm) tau C np nl).1.hesse_matrix_defined
      = fm.isLinear
  ∧ (fm.isLinear = false → ∀ f : Fin n → ℚ,
      (StandardLLH_evaluate_gradient
        (StandardLLH_init (LLH_new) vec_g (ModelArg.mk fm) tau C np nl).1 f).2
        = Except.error PyErr.notImplGradient
      ∧ (StandardLLH_evaluate_hesse_matrix
        (StandardLLH_init (LLH_new) vec_g (ModelArg.mk fm) tau C np nl).1 f).2
        = Except.error PyErr.notImplHesse) := by
  refine ⟨?_, ?_, ?_⟩
  · cases hfm : fm.isLinear <;> simp [StandardLLH_init, LLH_init, LLH_new, hfm]
  · cases hfm : fm.isLinear <;> simp [StandardLLH_init, LLH_init, LLH_new, hfm]
  · intro hfm f
    constructor
    · simp [StandardLLH_evaluate_gradient, StandardLLH_init, LLH_init, LLH_new,
        LLH_evaluate_gradient_check, hfm, okBind, errBind]
    · simp [StandardLLH_evaluate_hesse_matrix, StandardLLH_init, LLH_init, LLH_new,
        LLH_evaluate_hesse_check, hfm, okBind, errBind]

/-- Witness for C7: the concrete non-linear model. -/
theorem capability_flags_iff_linear_witness :
    nonlinModel1.isLinear = false
  ∧ (StandardLLH_init (LLH_new : LLHState 1 1) (fun _ => 1) (ModelArg.mk nonlinModel1)
      0 0 false true).1.gradient_defined = nonlinModel1.isLinear
  ∧ (StandardLLH_evaluate_gradient
      (StandardLLH_init (LLH_new : LLHState 1 1) (fun _ => 1) (ModelArg.mk nonlinModel1)
        0 0 false true).1 f0).2 = Except.error PyErr.notImplGradient
  ∧ (StandardLLH_evaluate_hesse_matrix
      (StandardLLH_init (LLH_new : LLHState 1 1) (fun _ => 1) (ModelArg.mk nonlinModel1)
        0 0 false true).1 f0).2 = Except.error PyErr.notImplHesse := by
  refine ⟨rfl, ?_, ?_, ?_⟩
  · exact (capability_flags_iff_linear (fun _ => 1) nonlinModel1 0 0 false true).1
  · exact ((capability_flags_iff_linear (fun _ => 1) nonlinModel1 0 0 false true).2.2
      rfl f0).1
  · exact ((capability_flags_iff_linear (fun _ => 1) nonlinModel1 0 0 false true).2.2
      rfl f0).2

/-- C5 counterexample: for a concrete feasible candidate (the 1 x 1
identity linear model, vec_g = [2], tau = 0, C = 0, f = [1]) the two
instances differing only in neg_llh return no results at all from
evaluate_llh (both raise AttributeError), so in particular they do not
return exactly negated results. -/
theorem neg_llh_flip_counterexample :
    ¬ ∃ a b : PyVal,
      (StandardLLH_evaluate_llh (fun x => x)
        (StandardLLH_init (LLH_new) (fun _ => 2) (ModelArg.mk idModel1) 0 0 false true).1
        f0).2 = Except.ok a
      ∧ (StandardLLH_evaluate_llh (fun x => x)
        (StandardLLH_init (LLH_new) (fun _ => 2) (ModelArg.mk idModel1) 0 0 false false).1
        f0).2 = Except.ok b
      ∧ b = PyVal.negate a := by
  rintro ⟨a, b, ha, hb, hab⟩
  rw [evaluate_llh_after_init_feasible (fun x => x) (fun _ => 2) idModel1 0 0 false true
    f0 idModel1_feasible] at ha
  exact Except.noConfusion ha

/-- C5 amended: for every fixed feasible candidate (componentwise
non-negative g_est and returned f) and fixed vec_g, linear model, tau, C
and N_prior, the two instances differing only in neg_llh do not return
negated results: evaluate_llh, evaluate_gradient and
evaluate_hesse_matrix all raise AttributeError for the unset attribute g,
identically on both instances. -/
theorem neg_llh_flip_feasible_attribute_error {m n : ℕ} (rlog : ℚ → ℚ)
    (vec_g : Fin m → ℚ) (fm : ForwardModel m n) (tau : ℚ)
    (C : Matrix (Fin n) (Fin n) ℚ) (np : Bool) (f : Fin n → ℚ)
    (hlin : fm.isLinear = true)
    (hfeas : ¬ ((∃ i, (fm.eval f).1 i < 0) ∨ (∃ i, (fm.eval f).2.1 i < 0))) :
    (StandardLLH_evaluate_llh rlog
      (StandardLLH_init (LLH_new) vec_g (ModelArg.mk fm) tau C np true).1 f).2
      = Except.error (PyErr.attrErr PyAttr.g)
  ∧ (StandardLLH_evaluate_llh rlog
      (StandardLLH_init (LLH_new) vec_g (ModelArg.mk fm) tau C np false).1 f).2
      = Except.error (PyErr.attrErr PyAttr.g)
  ∧ (StandardLLH_evaluate_gradient
      (StandardLLH_init (LLH_new) vec_g (ModelArg.mk fm) tau C np true).1 f).2
      = Except.error (PyErr.attrErr PyAttr.g)
  ∧ (StandardLLH_evaluate_gradient
      (StandardLLH_init (LLH_new) vec_g (ModelArg.mk fm) tau C np false).1 f).2
      = Except.error (PyErr.attrErr PyAttr.g)
  ∧ (StandardLLH_evaluate_hesse_matrix
      (StandardLLH_init (LLH_new) vec_g (ModelArg.mk fm) tau C np true).1 f).2
      = Except.error (PyErr.attrErr PyAttr.g)
  ∧ (StandardLLH_evaluate_hesse_matrix
      (StandardLLH_init (LLH_new) vec_g (ModelArg.mk fm) tau C np false).1 f).2
      = Except.error (PyErr.attrErr PyAttr.g) :=
  ⟨evaluate_llh_after_init_feasible rlog vec_g fm tau C np true f hfeas,
   evaluate_llh_after_init_feasible rlog vec_g fm tau C np false f hfeas,
   evaluate_gradient_after_init vec_g fm tau C np true f hlin,
   evaluate_gradient_after_init vec_g fm tau C np false f hlin,
   evaluate_hesse_after_init vec_g fm tau C np true f hlin,
   evaluate_hesse_after_init vec_g fm tau C np false f hlin⟩

/-- Witness for the amended C5 at the concrete feasible input. -/
theorem neg_llh_flip_feasible_attribute_error_witness :
    idModel1.isLinear = true
  ∧ ¬ ((∃ i, (idModel1.eval f0).1 i < 0) ∨ (∃ i, (idModel1.eval f0).2.1 i < 0))
  ∧ (StandardLLH_evaluate_llh (fun x => x)
      (StandardLLH_init (LLH_new) (fun _ => 2) (ModelArg.mk idModel1) 0 0 false false).1
      f0).2 = Except.error (PyErr.attrErr PyAttr.g)
  ∧ (StandardLLH_evaluate_gradient
      (StandardLLH_init (LLH_new) (fun _ => 2) (ModelArg.mk idModel1) 0 0 false true).1
      f0).2 = Except.error (PyErr.attrErr PyAttr.g)
  ∧ (StandardLLH_evaluate_hesse_matrix
      (StandardLLH_init (LLH_new) (fun _ => 2) (ModelArg.mk idModel1) 0 0 false false).1
      f0).2 = Except.error (PyErr.attrErr PyAttr.g) := by
  refine ⟨rfl, idModel1_feasible, ?_, ?_, ?_⟩
  · exact (neg_llh_flip_feasible_attribute_error (fun x => x) (fun _ => 2) idModel1 0 0
      false f0 rfl idModel1_feasible).2.1
  · exact (neg_llh_flip_feasible_attribute_error (fun x => x) (fun _ => 2) idModel1 0 0
      false f0 rfl idModel1_feasible).2.2.1
  · exact (neg_llh_flip_feasible_attribute_error (fun x => x) (fun _ => 2) idModel1 0 0
      false f0 rfl idModel1_feasible).2.2.2.2.2

end Funfolding
